import Mathlib

/-!
Shallow embedding of the Market-News-Dashboard repository (`utils.py`)
and proofs about its specified behavior.

Numbers are modelled as rationals (`ℚ`); Python `None` becomes `Option`;
code that can raise returns `Except`.  Each Python function keeps its name.
-/

namespace MarketNews

/-- Python's `int(...)` applied to a rational: truncation toward zero
(`Int.tdiv` is t-division, and a rational's denominator is positive). -/
def pyInt (q : ℚ) : ℤ :=
  Int.tdiv q.num (q.den : ℤ)

/-- Embeds `utils.pct_change(a, b)`:
`if a is None or b in (None, 0): return None` else `(a - b) / b * 100.0`. -/
def pct_change (a b : Option ℚ) : Option ℚ :=
  match a, b with
  | none, _ => none
  | _, none => none
  | some x, some y => if y = 0 then none else some ((x - y) / y * 100)

/-- Embeds `build_html_digest.color_for(val)`: white for `None`; otherwise clamp to
`[-3, 3]`, set `t = (v + 3)/6`, `r = int(255*(1-t))`, `g = int(255*t)`,
`b = 230`, and render `rgb(r,g,b)`. -/
def color_for (val : Option ℚ) : String :=
  match val with
  | none => "#ffffff"
  | some x =>
    let v := max (-3) (min 3 x)
    let t := (v + 3) / 6
    let r := pyInt (255 * (1 - t))
    let g := pyInt (255 * t)
    let b : ℤ := 230
    "rgb(" ++ toString r ++ "," ++ toString g ++ "," ++ toString b ++ ")"

/-- Helper: `color_for` only depends on the clamped value. -/
theorem color_for_congr (x y : ℚ) (h : max (-3) (min 3 x) = max (-3) (min 3 y)) :
    color_for (some x) = color_for (some y) := by
  simp only [color_for, h]

/-- C1: `pct_change a b` is absent exactly when `a` is absent, `b` is absent
or `b = 0`; otherwise it is exactly `(a - b) / b * 100`. -/
theorem pct_change_spec (a b : Option ℚ) :
    (pct_change a b = none ↔ a = none ∨ b = none ∨ b = some 0) ∧
    (∀ x y : ℚ, a = some x → b = some y → y ≠ 0 →
      pct_change a b = some ((x - y) / y * 100)) := by
  constructor
  · cases a with
    | none => simp [pct_change]
    | some x =>
      cases b with
      | none => simp [pct_change]
      | some y =>
        by_cases hy : y = 0 <;> simp [pct_change, hy]
  · intro x y hx hy hy0
    subst hx; subst hy
    simp [pct_change, hy0]

/-- Witness for C1 at a concrete input: `pct_change 50 40 = 25`. -/
theorem pct_change_spec_witness : pct_change (some 50) (some 40) = some 25 := by
  have h := (pct_change_spec (some 50) (some 40)).2 50 40 rfl rfl (by norm_num)
  rw [h]; norm_num

/-- C2 counterexample: at `chg_1d = 0` the cell color is `rgb(127,127,230)`
(`int(255 * 0.5) = 127`, truncation), not the claimed `rgb(128,128,230)`. -/
theorem color_for_midpoint_cex :
    color_for (some 0) = "rgb(127,127,230)" ∧
    color_for (some 0) ≠ "rgb(128,128,230)" := by
  constructor
  · norm_num [color_for, pyInt]; rfl
  · norm_num [color_for, pyInt]; decide

/-- C2 (amended): `-3 ↦ rgb(255,0,230)`, `+3 ↦ rgb(0,255,230)`,
`0 ↦ rgb(127,127,230)` (integer truncation of 127.5), values beyond `±3`
clamp to the output at exactly `±3`, and an absent value maps to white. -/
theorem color_for_scale :
    color_for none = "#ffffff" ∧
    color_for (some (-3)) = "rgb(255,0,230)" ∧
    color_for (some 3) = "rgb(0,255,230)" ∧
    color_for (some 0) = "rgb(127,127,230)" ∧
    (∀ v : ℚ, v ≤ -3 → color_for (some v) = color_for (some (-3))) ∧
    (∀ v : ℚ, 3 ≤ v → color_for (some v) = color_for (some 3)) := by
  refine ⟨rfl, by norm_num [color_for, pyInt]; rfl, by norm_num [color_for, pyInt]; rfl,
    by norm_num [color_for, pyInt]; rfl, ?_, ?_⟩
  · intro v hv
    apply color_for_congr
    rw [min_eq_right (hv.trans (by norm_num)), max_eq_left hv,
      min_eq_right (by norm_num : (-3:ℚ) ≤ 3), max_self]
  · intro v hv
    apply color_for_congr
    rw [min_eq_left hv, min_eq_left (le_refl (3:ℚ)),
      max_eq_right (by norm_num : (-3:ℚ) ≤ 3)]

/-- Witness for C2's clamp hypotheses at concrete out-of-range inputs. -/
theorem color_for_scale_witness :
    color_for (some (-10)) = "rgb(255,0,230)" ∧
    color_for (some 7) = "rgb(0,255,230)" :=
  ⟨(color_for_scale.2.2.2.2.1 (-10) (by norm_num)).trans color_for_scale.2.1,
   (color_for_scale.2.2.2.2.2 7 (by norm_num)).trans color_for_scale.2.2.1⟩

/-! ### News fetcher (`fetch_news`) -/

/-- One parsed feed entry (`feedparser` entry, the attributes read by
`fetch_news`). -/
structure Entry where
  title : String
  link : String
  published : String
  summary : String
deriving DecidableEq

/-- One item of the list returned by `fetch_news`. -/
structure NewsItem where
  title : String
  link : String
  published : String
  summary : String
  source : String
deriving DecidableEq

/-- The dict appended for each entry, with the fixed source tag. -/
def mkNewsItem (e : Entry) : NewsItem :=
  ⟨e.title, e.link, e.published, e.summary, "Reuters"⟩

/-- Python's `l[:n]` for an integer `n` (negative `n` drops the last `|n|`
elements). -/
def pySlice (l : List α) (n : ℤ) : List α :=
  if 0 ≤ n then l.take n.toNat else l.take (l.length - (-n).toNat)

/-- Embeds `utils.fetch_news(max_items)`: the two feeds in loop order
`[MARKETS_RSS, REUTERS_RSS]`; a feed whose parse raises contributes nothing
(`none`); each feed contributes `entries[: max(0, max_items//2)]`; the
concatenation is truncated to `max_items`. -/
def fetch_news (marketsFeed reutersFeed : Option (List Entry))
    (max_items : ℤ) : List NewsItem :=
  let half := (max 0 (Int.fdiv max_items 2)).toNat
  let fromFeed : Option (List Entry) → List NewsItem := fun f =>
    match f with
    | none => []
    | some es => (es.take half).map mkNewsItem
  pySlice (fromFeed marketsFeed ++ fromFeed reutersFeed) max_items

/-- Concrete first feed with 7 entries. -/
def feedA7 : List Entry :=
  [⟨"a1","","",""⟩, ⟨"a2","","",""⟩, ⟨"a3","","",""⟩, ⟨"a4","","",""⟩,
   ⟨"a5","","",""⟩, ⟨"a6","","",""⟩, ⟨"a7","","",""⟩]

/-- Concrete second feed with 3 entries. -/
def feedB3 : List Entry :=
  [⟨"b1","","",""⟩, ⟨"b2","","",""⟩, ⟨"b3","","",""⟩]

/-- C4 counterexample: with 7 entries in the first feed, 3 in the second and
`max_items = 10`, only 3 items (not 5) can come from the second feed, so the
output has 8 items, not 10. -/
theorem fetch_news_7_3_cex :
    (fetch_news (some feedA7) (some feedB3) 10).length = 8 ∧
    (fetch_news (some feedA7) (some feedB3) 10).length ≠ 10 := by
  constructor <;> decide

/-- C4 (amended): with 7 entries in the first feed, 3 in the second and
`max_items = 10`, `fetch_news` takes up to 5 entries from each feed — 5 from
the first and all 3 from the second — concatenates them with the first feed's
items first, and returns all 8 (the truncation to 10 is a no-op). -/
theorem fetch_news_7_3 (A B : List Entry) (hA : A.length = 7)
    (hB : B.length = 3) :
    fetch_news (some A) (some B) 10 =
      (A.take 5).map mkNewsItem ++ B.map mkNewsItem ∧
    (fetch_news (some A) (some B) 10).length = 8 := by
  have hBtake : B.take 5 = B := List.take_of_length_le (by rw [hB]; norm_num)
  have hhalf : (max 0 (Int.fdiv 10 2)).toNat = 5 := by decide
  have hlen : ((A.take 5).map mkNewsItem ++ (B.take 5).map mkNewsItem).length = 8 := by
    simp [hBtake, hB, hA]
  constructor
  · simp only [fetch_news, hhalf, pySlice]
    rw [if_pos (by norm_num), hBtake]
    rw [List.take_of_length_le (by rw [hBtake] at hlen; rw [hlen]; norm_num)]
  · simp only [fetch_news, hhalf, pySlice]
    rw [if_pos (by norm_num),
      List.take_of_length_le (by rw [hlen]; norm_num), hlen]

/-- Witness for C4 at the concrete feeds. -/
theorem fetch_news_7_3_witness :
    fetch_news (some feedA7) (some feedB3) 10 =
      (feedA7.take 5).map mkNewsItem ++ feedB3.map mkNewsItem ∧
    (fetch_news (some feedA7) (some feedB3) 10).length = 8 :=
  fetch_news_7_3 feedA7 feedB3 (by decide) (by decide)

/-! ### Quotes and sector performance (`fetch_quote`, `fetch_sector_perf`) -/

/-- The dict returned by `utils.fetch_quote` (all fields `None` on any
provider error). -/
structure Quote where
  last : Option ℚ
  prev_close : Option ℚ
  currency : Option String
deriving DecidableEq

/-- Embeds `utils.SECTOR_ETFS`. -/
def SECTOR_ETFS : List String :=
  ["XLE","XLU","XLK","XLF","XLI","XLY","XLP","XLV","XLB","XLRE","XLC"]

/-- One row of the sector table built by `fetch_sector_perf`. -/
structure SectorRow where
  ticker : String
  last : ℚ
  chg_1d : Option ℚ
  chg_period : Option ℚ
deriving DecidableEq

/-- The `frames` list of `fetch_sector_perf`: one row per sector symbol,
skipping a symbol when `q["last"] is None or hist.empty`.  The historical
series is modelled by its list of closes.  `chg_1d` is guarded by Python
truthiness of `prev_close` (falsy when `None` or `0`); `chg_period` uses the
first close. -/
def sectorFrames (quote : String → Quote) (hist : String → List ℚ) :
    List SectorRow :=
  SECTOR_ETFS.filterMap fun t =>
    let q := quote t
    let h := hist t
    match q.last with
    | none => none
    | some lastv =>
      if h.isEmpty then none
      else
        let chg_1d :=
          match q.prev_close with
          | none => none
          | some p => if p = 0 then none else pct_change (some lastv) (some p)
        let chg_period := pct_change (some lastv) (some (h.headD 0))
        some ⟨t, lastv, chg_1d, chg_period⟩

/-- The sort key order used by
`sort_values("chg_1d", ascending=False, na_position="last")`:
`a` may come before `b` when `a`'s change is at least `b`'s, with absent
values at the end. -/
def chgGE (x y : Option ℚ) : Prop :=
  match x, y with
  | none, none => True
  | none, some _ => False
  | some _, none => True
  | some a, some b => b ≤ a

instance : DecidableRel chgGE := fun x y =>
  match x, y with
  | none, none => isTrue trivial
  | none, some _ => isFalse fun h => h
  | some _, none => isTrue trivial
  | some a, some b => inferInstanceAs (Decidable (b ≤ a))

/-- Row order of the sector table. -/
def rowGE (a b : SectorRow) : Prop := chgGE a.chg_1d b.chg_1d

instance : DecidableRel rowGE := fun a b =>
  inferInstanceAs (Decidable (chgGE a.chg_1d b.chg_1d))

instance : IsTotal SectorRow rowGE :=
  ⟨fun a b => by
    unfold rowGE chgGE
    cases a.chg_1d <;> cases b.chg_1d <;> simp [le_total]⟩

instance : IsTrans SectorRow rowGE :=
  ⟨fun a b c => by
    unfold rowGE chgGE
    rcases a.chg_1d with _ | x <;> rcases b.chg_1d with _ | y <;>
      rcases c.chg_1d with _ | z <;> intro hab hbc <;>
      first
      | trivial
      | exact hab.elim
      | exact hbc.elim
      | exact le_trans hbc hab⟩

/-- Embeds `utils.fetch_sector_perf`: builds `frames` and sorts the resulting
`DataFrame` on `chg_1d`.  When every symbol is skipped, `pd.DataFrame([])`
has no `chg_1d` column and `sort_values` raises `KeyError`, modelled as
`Except.error`. -/
def fetch_sector_perf (quote : String → Quote) (hist : String → List ℚ) :
    Except String (List SectorRow) :=
  let frames := sectorFrames quote hist
  if frames.isEmpty then Except.error "KeyError: chg_1d"
  else Except.ok (frames.insertionSort rowGE)

/-- All 11 symbols failing: every quote empty, every series empty. -/
def quoteAllFail : String → Quote := fun _ => ⟨none, none, none⟩

/-- Empty historical series for every symbol. -/
def histAllFail : String → List ℚ := fun _ => []

/-- C3 counterexample: when all 11 sector symbols fail, `fetch_sector_perf`
does not return an empty table — `sort_values` on the empty frame raises
(`KeyError: 'chg_1d'`), so an exception propagates to the caller. -/
theorem fetch_sector_perf_all_fail_cex :
    fetch_sector_perf quoteAllFail histAllFail =
      Except.error "KeyError: chg_1d" := rfl

/-- C3 (amended): whenever at least one sector symbol succeeds,
`fetch_sector_perf` returns (without raising) a table whose rows are exactly
the rows of the symbols that succeeded; when all 11 fail the sort raises
instead of returning an empty table. -/
theorem fetch_sector_perf_partial (quote : String → Quote)
    (hist : String → List ℚ) (h : sectorFrames quote hist ≠ []) :
    ∃ rows, fetch_sector_perf quote hist = Except.ok rows ∧
      rows.Perm (sectorFrames quote hist) := by
  refine ⟨(sectorFrames quote hist).insertionSort rowGE, ?_, ?_⟩
  · unfold fetch_sector_perf
    rw [if_neg (by simpa [List.isEmpty_iff] using h)]
  · exact List.perm_insertionSort rowGE _

/-- One successful symbol (`XLE`), the rest failing. -/
def quoteOne : String → Quote := fun t =>
  if t = "XLE" then ⟨some 50, some 40, none⟩ else ⟨none, none, none⟩

/-- A one-point series for `XLE`, empty for the rest. -/
def histOne : String → List ℚ := fun t => if t = "XLE" then [45] else []

/-- Witness for C3 at a concrete input with one surviving symbol. -/
theorem fetch_sector_perf_partial_witness :
    ∃ rows, fetch_sector_perf quoteOne histOne = Except.ok rows ∧
      rows.Perm (sectorFrames quoteOne histOne) :=
  fetch_sector_perf_partial quoteOne histOne
    (by simp [sectorFrames, SECTOR_ETFS, quoteOne, histOne])

/-- C6: every table returned by `fetch_sector_perf` lists the rows with a
defined `chg_1d` in descending order of `chg_1d`, and every row with an
absent `chg_1d` comes after all rows with a defined one. -/
theorem sector_sorted (quote : String → Quote) (hist : String → List ℚ)
    (rows : List SectorRow)
    (h : fetch_sector_perf quote hist = Except.ok rows) :
    rows.Pairwise (fun a b =>
      (∀ x y : ℚ, a.chg_1d = some x → b.chg_1d = some y → y ≤ x) ∧
      (a.chg_1d = none → b.chg_1d = none)) := by
  unfold fetch_sector_perf at h
  by_cases he : (sectorFrames quote hist).isEmpty
  · rw [if_pos he] at h
    exact absurd h (by simp)
  · rw [if_neg he] at h
    have hrows : rows = (sectorFrames quote hist).insertionSort rowGE :=
      (Except.ok.injEq _ _ ▸ congrArg id h).symm ▸ by
        cases h; rfl
    have hs : rows.Pairwise rowGE := by
      rw [hrows]; exact List.sorted_insertionSort rowGE _
    refine hs.imp ?_
    intro a b hab
    constructor
    · intro x y hx hy
      unfold rowGE chgGE at hab
      rw [hx, hy] at hab
      exact hab
    · intro hx
      unfold rowGE chgGE at hab
      rw [hx] at hab
      cases hb : b.chg_1d with
      | none => rfl
      | some z => rw [hb] at hab; exact hab.elim

/-- The table produced from the single surviving symbol `XLE`. -/
def rowsOne : List SectorRow := [⟨"XLE", 50, some 25, some (100/9)⟩]

/-- Witness for C6 at a concrete input. -/
theorem sector_sorted_witness :
    rowsOne.Pairwise (fun a b =>
      (∀ x y : ℚ, a.chg_1d = some x → b.chg_1d = some y → y ≤ x) ∧
      (a.chg_1d = none → b.chg_1d = none)) :=
  sector_sorted quoteOne histOne rowsOne (by
    simp [fetch_sector_perf, sectorFrames, SECTOR_ETFS, quoteOne, histOne,
      pct_change, rowsOne]
    norm_num)

/-! ### Key dashboard (`fetch_key_dashboard`) -/

/-- The seven labels of `fetch_key_dashboard`'s ticker map. -/
inductive KLabel
  | VIX | SPY | QQQ | DIA | GLD | UUP | TNX
deriving DecidableEq

/-- One entry of the dashboard dict after the `pct` field is attached. -/
structure DashEntry where
  last : Option ℚ
  prev_close : Option ℚ
  pct : Option ℚ
deriving DecidableEq

/-- The TNX adjustment block: `if out["TNX"]["last"] is not None`, divide
`last` by 10 and, if also present, divide `prev_close` by 10. -/
def adjustTNX (q : Quote) : Quote :=
  match q.last with
  | none => q
  | some x => { q with last := some (x / 10), prev_close := q.prev_close.map (· / 10) }

/-- Embeds `utils.fetch_key_dashboard()`, with the provider responses as input:
fetch a quote per label, apply the TNX adjustment, then attach
`pct = pct_change(last, prev_close)` to every entry. -/
def fetch_key_dashboard (quote : KLabel → Quote) (l : KLabel) : DashEntry :=
  let q := if l = KLabel.TNX then adjustTNX (quote KLabel.TNX) else quote l
  { last := q.last, prev_close := q.prev_close,
    pct := pct_change q.last q.prev_close }

/-- Provider response where the TNX quote has no last price but a previous
close of 40. -/
def quoteTNXNoLast : KLabel → Quote := fun l =>
  match l with
  | KLabel.TNX => ⟨none, some 40, none⟩
  | _ => ⟨none, none, none⟩

/-- C5 counterexample: when the TNX last price is absent but its previous
close (40) is present, the previous close is NOT divided by 10 — the
adjustment block is only entered when `last` is present. -/
theorem tnx_prev_close_cex :
    (fetch_key_dashboard quoteTNXNoLast KLabel.TNX).prev_close = some 40 ∧
    (fetch_key_dashboard quoteTNXNoLast KLabel.TNX).prev_close ≠
      ((quoteTNXNoLast KLabel.TNX).prev_close).map (· / 10) := by
  constructor
  · rfl
  · intro h
    rw [show (fetch_key_dashboard quoteTNXNoLast KLabel.TNX).prev_close
        = some 40 from rfl] at h
    simp [quoteTNXNoLast] at h
    norm_num at h

/-- C5 (amended): the TNX last value is divided by 10 whenever present; the
TNX previous close is divided by 10 only when the last value is also
present (otherwise it is left unchanged); and after the adjustment every
entry is assigned `pct = pct_change(last, prev_close)` uniformly. -/
theorem tnx_adjust_spec (quote : KLabel → Quote) :
    (fetch_key_dashboard quote KLabel.TNX).last =
      ((quote KLabel.TNX).last).map (· / 10) ∧
    (fetch_key_dashboard quote KLabel.TNX).prev_close =
      (match (quote KLabel.TNX).last with
       | none => (quote KLabel.TNX).prev_close
       | some _ => ((quote KLabel.TNX).prev_close).map (· / 10)) ∧
    (∀ l : KLabel, (fetch_key_dashboard quote l).pct =
      pct_change (fetch_key_dashboard quote l).last
        (fetch_key_dashboard quote l).prev_close) := by
  refine ⟨?_, ?_, ?_⟩
  · rcases hq : quote KLabel.TNX with ⟨la, pc, cu⟩
    cases la <;> simp [fetch_key_dashboard, adjustTNX, hq]
  · rcases hq : quote KLabel.TNX with ⟨la, pc, cu⟩
    cases la <;> simp [fetch_key_dashboard, adjustTNX, hq]
  · intro l
    rfl

/-! ### Strategy suggestions (`strategy_suggestions`) -/

/-- The premium-selling cue (VIX ≥ 20). -/
def premiumSelling : String :=
  "IV elevated (VIX ≥ 20): Favor selling premium (put credit spreads, covered calls)."

/-- The debit-strategies cue (VIX ≤ 14). -/
def debitStrategies : String :=
  "IV subdued (VIX ≤ 14): Debit strategies may be cheaper (long calls/puts, calendars)."

/-- The defensive-tilt cue (10Y ≥ 4.25). -/
def defensiveTilt : String :=
  "10Y yield ≥ 4.25%: Growth may be pressured; consider defensive/value tilt."

/-- The growth-tailwind cue (10Y ≤ 3.75). -/
def growthTailwind : String :=
  "10Y yield ≤ 3.75%: Growth tailwind; tech momentum setups may perform."

/-- The risk-off cue (SPY ≤ −1%). -/
def riskOff : String :=
  "Broad risk-off (SPY ≤ −1%): Tighten risk, look for reversal patterns for swings."

/-- The risk-on cue (SPY ≥ +1%). -/
def riskOn : String :=
  "Risk-on (SPY ≥ +1%): Trend-following entries may have higher follow-through."

/-- The neutral fallback suggestion. -/
def neutralSugg : String :=
  "Neutral backdrop: Use stock-specific catalysts and technical confirmations."

/-- The volatility rule block: `if vix is not None: if vix >= 20 ... elif
vix <= 14 ...`. -/
def volSugg (vix : Option ℚ) : List String :=
  match vix with
  | none => []
  | some v =>
    if 20 ≤ v then [premiumSelling]
    else if v ≤ 14 then [debitStrategies]
    else []

/-- The yield rule block: thresholds 4.25 and 3.75. -/
def yieldSugg (tnx : Option ℚ) : List String :=
  match tnx with
  | none => []
  | some v =>
    if 17/4 ≤ v then [defensiveTilt]
    else if v ≤ 15/4 then [growthTailwind]
    else []

/-- The index rule block: thresholds −1 and +1 on the SPY percent change. -/
def idxSugg (spy_pct : Option ℚ) : List String :=
  match spy_pct with
  | none => []
  | some v =>
    if v ≤ -1 then [riskOff]
    else if 1 ≤ v then [riskOn]
    else []

/-- Embeds `utils.strategy_suggestions(metrics)`: reads `VIX.last`, `TNX.last` and
`SPY.pct`, appends the cues of the three rule blocks in order, and falls back
to the single neutral suggestion when no rule fired. -/
def strategy_suggestions (metrics : KLabel → DashEntry) : List String :=
  let vix := (metrics KLabel.VIX).last
  let tnx := (metrics KLabel.TNX).last
  let spy_pct := (metrics KLabel.SPY).pct
  let sugg := volSugg vix ++ yieldSugg tnx ++ idxSugg spy_pct
  if sugg.isEmpty then [neutralSugg] else sugg

/-- The fixed metrics of C7: VIX = 25, TNX = 4.5, SPY percent change = −2. -/
def metricsC7 : KLabel → DashEntry := fun l =>
  match l with
  | KLabel.VIX => ⟨some 25, none, none⟩
  | KLabel.TNX => ⟨some (9/2), none, none⟩
  | KLabel.SPY => ⟨none, none, some (-2)⟩
  | _ => ⟨none, none, none⟩

/-- C7: for VIX = 25, TNX = 4.5, SPY percent change = −2, the output is
exactly the premium-selling cue, then the defensive-tilt cue, then the
risk-off cue. -/
theorem suggestions_fixed_input :
    strategy_suggestions metricsC7 = [premiumSelling, defensiveTilt, riskOff] := by
  have h1 : volSugg (some 25) = [premiumSelling] := by
    rw [volSugg]
    rw [if_pos (by norm_num)]
  have h2 : yieldSugg (some (9/2)) = [defensiveTilt] := by
    rw [yieldSugg]
    rw [if_pos (by norm_num)]
  have h3 : idxSugg (some (-2)) = [riskOff] := by
    rw [idxSugg]
    rw [if_pos (by norm_num)]
  simp only [strategy_suggestions, metricsC7, h1, h2, h3]
  rfl

/-- C8: when none of the six threshold conditions fires, the output is
exactly the single neutral fallback suggestion. -/
theorem suggestions_neutral_fallback (m : KLabel → DashEntry)
    (hv : ∀ v : ℚ, (m KLabel.VIX).last = some v → ¬20 ≤ v ∧ ¬v ≤ 14)
    (ht : ∀ v : ℚ, (m KLabel.TNX).last = some v → ¬(17/4 : ℚ) ≤ v ∧ ¬v ≤ 15/4)
    (hs : ∀ v : ℚ, (m KLabel.SPY).pct = some v → ¬v ≤ -1 ∧ ¬(1 : ℚ) ≤ v) :
    strategy_suggestions m = [neutralSugg] := by
  have h1 : volSugg (m KLabel.VIX).last = [] := by
    cases hx : (m KLabel.VIX).last with
    | none => rfl
    | some v =>
      obtain ⟨a, b⟩ := hv v hx
      rw [volSugg, if_neg a, if_neg b]
  have h2 : yieldSugg (m KLabel.TNX).last = [] := by
    cases hx : (m KLabel.TNX).last with
    | none => rfl
    | some v =>
      obtain ⟨a, b⟩ := ht v hx
      rw [yieldSugg, if_neg a, if_neg b]
  have h3 : idxSugg (m KLabel.SPY).pct = [] := by
    cases hx : (m KLabel.SPY).pct with
    | none => rfl
    | some v =>
      obtain ⟨a, b⟩ := hs v hx
      rw [idxSugg, if_neg a, if_neg b]
  simp only [strategy_suggestions, h1, h2, h3]
  rfl

/-- Metrics with all three inputs absent. -/
def metricsNone : KLabel → DashEntry := fun _ => ⟨none, none, none⟩

/-- Witness for C8: with all three inputs absent no condition fires and the
output is the single neutral suggestion. -/
theorem suggestions_neutral_fallback_witness :
    strategy_suggestions metricsNone = [neutralSugg] :=
  suggestions_neutral_fallback metricsNone
    (fun _ h => nomatch h) (fun _ h => nomatch h) (fun _ h => nomatch h)

/-- The volatility block emits zero or one cue. -/
theorem volSugg_cases (v : Option ℚ) :
    volSugg v = [] ∨ volSugg v = [premiumSelling] ∨
      volSugg v = [debitStrategies] := by
  cases v with
  | none => exact Or.inl rfl
  | some x =>
    rw [volSugg]
    split_ifs <;> simp

/-- The yield block emits zero or one cue. -/
theorem yieldSugg_cases (v : Option ℚ) :
    yieldSugg v = [] ∨ yieldSugg v = [defensiveTilt] ∨
      yieldSugg v = [growthTailwind] := by
  cases v with
  | none => exact Or.inl rfl
  | some x =>
    rw [yieldSugg]
    split_ifs <;> simp

/-- The index block emits zero or one cue. -/
theorem idxSugg_cases (v : Option ℚ) :
    idxSugg v = [] ∨ idxSugg v = [riskOff] ∨ idxSugg v = [riskOn] := by
  cases v with
  | none => exact Or.inl rfl
  | some x =>
    rw [idxSugg]
    split_ifs <;> simp

/-- C10: for every input, `strategy_suggestions` returns between 1 and 3
suggestions, with at most one from each of the three rule categories. -/
theorem suggestions_bounds (m : KLabel → DashEntry) :
    1 ≤ (strategy_suggestions m).length ∧
    (strategy_suggestions m).length ≤ 3 ∧
    (strategy_suggestions m).countP
      (fun s => s == premiumSelling || s == debitStrategies) ≤ 1 ∧
    (strategy_suggestions m).countP
      (fun s => s == defensiveTilt || s == growthTailwind) ≤ 1 ∧
    (strategy_suggestions m).countP
      (fun s => s == riskOff || s == riskOn) ≤ 1 := by
  rcases volSugg_cases (m KLabel.VIX).last with h1 | h1 | h1 <;>
    rcases yieldSugg_cases (m KLabel.TNX).last with h2 | h2 | h2 <;>
    rcases idxSugg_cases (m KLabel.SPY).pct with h3 | h3 | h3 <;>
    simp only [strategy_suggestions, h1, h2, h3] <;>
    decide

/-! ### Macro cards of `build_html_digest` -/

/-- Two-digit zero-padded rendering of a number below 100. -/
def pad2 (n : ℕ) : String :=
  if n < 10 then "0" ++ toString n else toString n

/-- Round half to even to an integer, as Python's float formatting does. -/
def roundHalfEven (q : ℚ) : ℤ :=
  let f := ⌊q⌋
  let r := q - f
  if r < 1/2 then f
  else if 1/2 < r then f + 1
  else if f % 2 = 0 then f else f + 1

/-- Python's `f"{v:+.2f}"` on a rational: explicit sign, then the magnitude
rounded (half to even) to two decimals.  (The float value `-0.0`, which
formats with a minus sign, has no rational counterpart.) -/
def fmtSigned2 (v : ℚ) : String :=
  let sgn := if v < 0 then "-" else "+"
  let n := (roundHalfEven (|v| * 100)).toNat
  sgn ++ toString (n / 100) ++ "." ++ pad2 (n % 100)

/-- Embeds `build_html_digest.pct(v)`: `f"{v:+.2f}%"`, and the em-dash when the
format raises (absent value). -/
def pct (v : Option ℚ) : String :=
  match v with
  | none => "—"
  | some x => fmtSigned2 x ++ "%"

/-- The macro-cell percent color of `build_html_digest`:
`'#1a7f37' if c['pct'].startswith('+') else '#b32d2e'`. -/
def cardPctColor (pctText : String) : String :=
  if pctText.startsWith "+" then "#1a7f37" else "#b32d2e"

/-- C9: a macro card's percent text is colored green exactly when the
formatted percent string starts with `"+"` (a string-prefix check), red
otherwise; an absent percent formats to `"—"`, which does not start with
`"+"`, so it is colored red, never green. -/
theorem macro_pct_color_spec (v : Option ℚ) :
    (cardPctColor (pct v) = "#1a7f37" ↔ (pct v).startsWith "+" = true) ∧
    (cardPctColor (pct v) = "#b32d2e" ↔ (pct v).startsWith "+" = false) ∧
    pct none = "—" ∧
    ("—".startsWith "+") = false ∧
    cardPctColor (pct none) = "#b32d2e" := by
  refine ⟨?_, ?_, rfl, by decide, by decide⟩
  · unfold cardPctColor
    by_cases h : (pct v).startsWith "+" = true
    · rw [if_pos h]
      simp [h]
    · rw [if_neg h]
      simp [h]
  · unfold cardPctColor
    by_cases h : (pct v).startsWith "+" = true
    · rw [if_pos h]
      simp [h]
    · rw [if_neg h]
      simp [h]
